import Mathlib

/-!
Verification of the atomic funds-transfer engine of the shop-zone banking
demo.

The engine lives in `src/database/schema.sql` as the PL/pgSQL function
`transfer_money` together with the schema constraints on `accounts`
(CHECK balance >= 0) and `transactions` (CHECK amount > 0, UNIQUE
reference_number).  We embed the data model and the procedure shallowly:

* DECIMAL(15,2) money values are modelled as `Int` (fixed-point units);
* table rows are Lean structures, a table is a `List` of rows;
* the implicit transaction of the stored function, together with its
  `EXCEPTION WHEN OTHERS` handler, is modelled by running the body in
  `Except SqlError`: a thrown constraint violation makes the function
  return a failure result with the original (rolled-back) state;
* timestamps are reduced to an abstract day number `current_date`,
  which is all `DATE(created_at) = CURRENT_DATE` inspects;
* `uuid_generate_v4` primary keys for transactions are modelled by a
  counter `next_txn_id` (claims only depend on freshness).

The front-end demo implementation `transferMoney` of `src/js/app_demo.js`
is embedded separately (`Demo` namespace); localStorage persistence, DOM
and toast side effects are not part of the model, the in-memory account
and transaction arrays are.
-/

namespace Ledger

/-- Account status column: CHECK (status IN ('ACTIVE', 'FROZEN', 'CLOSED')). -/
inductive AccountStatus where
  | active
  | frozen
  | closed
deriving DecidableEq

/-- Transaction status column:
CHECK (status IN ('PENDING', 'COMPLETED', 'FAILED', 'REVERSED')). -/
inductive TxnStatus where
  | pending
  | completed
  | failed
  | reversed
deriving DecidableEq

/-- transaction_type column:
CHECK (transaction_type IN ('TRANSFER', 'DEPOSIT', 'WITHDRAWAL', 'FEE')). -/
inductive TxnType where
  | transfer
  | deposit
  | withdrawal
  | fee
deriving DecidableEq

/-- A row of the `accounts` table (the columns the transfer engine reads:
account_id, balance, status, daily_transfer_limit; the remaining columns
never influence `transfer_money`). -/
structure Account where
  account_id : Nat
  balance : Int
  status : AccountStatus
  daily_transfer_limit : Int
deriving DecidableEq

/-- A row of the `transactions` table (the columns `transfer_money` writes
or its daily-limit query reads; `created_date` stands for
DATE(created_at)). -/
structure Txn where
  transaction_id : Nat
  sender_account_id : Option Nat
  receiver_account_id : Option Nat
  amount : Int
  transaction_type : TxnType
  status : TxnStatus
  description : String
  reference_number : String
  created_date : Nat
deriving DecidableEq

/-- The database state seen by `transfer_money`: the two tables, the
current date (for DATE(created_at) = CURRENT_DATE) and the fresh-id
counter standing in for uuid generation of transaction_id. -/
structure DB where
  accounts : List Account
  transactions : List Txn
  current_date : Nat
  next_txn_id : Nat
deriving DecidableEq

/-- The parameters of transfer_money(p_sender_account_id,
p_receiver_account_id, p_amount, p_description, p_reference_number). -/
structure TransferArgs where
  sender : Nat
  receiver : Nat
  amount : Int
  description : String
  reference_number : String
deriving DecidableEq

/-- Store-level errors raised by the schema constraints during the write
steps; any of them is caught by the blanket EXCEPTION WHEN OTHERS handler
of `transfer_money` and surfaces as the raw SQLERRM text. -/
inductive SqlError where
  | checkViolationAmountPositive
  | uniqueViolationReference
  | checkViolationBalanceNonneg
deriving DecidableEq

/-- The distinct failure payloads `transfer_money` can put in its JSON
result.  The four explicit constructors correspond to the four early
RETURN branches with their literal error strings; `sqlError` is the
EXCEPTION WHEN OTHERS branch returning SQLERRM. -/
inductive TransferError where
  /-- json error string 'Sender account not found or inactive' -/
  | senderNotFoundOrInactive
  /-- json error string 'Receiver account not found or inactive' -/
  | receiverNotFoundOrInactive
  /-- json error string 'Insufficient balance' -/
  | insufficientBalance
  /-- json error string 'Daily transfer limit exceeded' -/
  | dailyLimitExceeded
  /-- json error string SQLERRM from the blanket exception handler -/
  | sqlError (e : SqlError)
deriving DecidableEq

/-- The JSON result of `transfer_money`: success carries transaction_id,
failure carries the error payload. -/
inductive TransferResult where
  | success (transaction_id : Nat)
  | failure (error : TransferError)
deriving DecidableEq

/-- Whether the JSON result has 'success': true. -/
def TransferResult.isSuccess : TransferResult → Bool
  | .success _ => true
  | .failure _ => false

/-- The sender lock query predicating row:
WHERE account_id = p_sender_account_id AND status = 'ACTIVE' FOR UPDATE. -/
def senderPred (p : TransferArgs) (a : Account) : Bool :=
  a.account_id == p.sender && a.status == AccountStatus.active

/-- EXISTS (SELECT 1 FROM accounts WHERE account_id = p_receiver_account_id
AND status = 'ACTIVE'). -/
def receiverActive (db : DB) (i : Nat) : Bool :=
  db.accounts.any fun a => a.account_id == i && a.status == AccountStatus.active

/-- SELECT COALESCE(SUM(amount), 0) FROM transactions WHERE
sender_account_id = p_sender_account_id AND DATE(created_at) =
CURRENT_DATE AND status = 'COMPLETED'. -/
def dailyCompletedTotal (db : DB) (sender : Nat) : Int :=
  ((db.transactions.filter fun t =>
      t.sender_account_id == some sender &&
      t.created_date == db.current_date &&
      t.status == TxnStatus.completed).map (·.amount)).sum

/-- The PENDING transaction row inserted by `transfer_money` (INSERT INTO
transactions ... VALUES (sender, receiver, amount, 'TRANSFER', 'PENDING',
description, reference)). -/
def pendingTxn (db : DB) (p : TransferArgs) : Txn :=
  { transaction_id := db.next_txn_id
    sender_account_id := some p.sender
    receiver_account_id := some p.receiver
    amount := p.amount
    transaction_type := TxnType.transfer
    status := TxnStatus.pending
    description := p.description
    reference_number := p.reference_number
    created_date := db.current_date }

/-- INSERT INTO transactions ... RETURNING transaction_id.  The insert is
guarded by the schema constraints CHECK (amount > 0) and UNIQUE
(reference_number); violating either raises, which the caller's handler
turns into a rolled-back failure. -/
def insertTransaction (db : DB) (p : TransferArgs) :
    Except SqlError (Nat × DB) :=
  if p.amount ≤ 0 then
    Except.error SqlError.checkViolationAmountPositive
  else if (db.transactions.any fun t =>
      t.reference_number == p.reference_number) = true then
    Except.error SqlError.uniqueViolationReference
  else
    Except.ok (db.next_txn_id,
      { db with
          transactions := db.transactions ++ [pendingTxn db p]
          next_txn_id := db.next_txn_id + 1 })

/-- UPDATE accounts SET balance = balance + delta WHERE account_id = i
(the row image, before the CHECK (balance >= 0) constraint is tested). -/
def updateAccounts (l : List Account) (i : Nat) (delta : Int) :
    List Account :=
  l.map fun a =>
    if a.account_id == i then { a with balance := a.balance + delta } else a

/-- UPDATE accounts SET balance = balance + delta WHERE account_id = i,
with the CHECK (balance >= 0) constraint: if any updated row would go
negative the statement raises a constraint violation. -/
def applyBalanceDelta (db : DB) (i : Nat) (delta : Int) :
    Except SqlError DB :=
  if (db.accounts.any fun a =>
      a.account_id == i && decide (a.balance + delta < 0)) = true then
    Except.error SqlError.checkViolationBalanceNonneg
  else
    Except.ok { db with accounts := updateAccounts db.accounts i delta }

/-- UPDATE transactions SET status = 'COMPLETED', completed_at = now
WHERE transaction_id = txId (completed_at is not modelled: no claim
reads it). -/
def markCompleted (db : DB) (txId : Nat) : DB :=
  { db with
      transactions := db.transactions.map fun t =>
        if t.transaction_id == txId then
          { t with status := TxnStatus.completed }
        else t }

/-- The body of `transfer_money` between BEGIN and EXCEPTION, translated
statement by statement from src/database/schema.sql lines 156-230.  Early
RETURN branches are ordinary `.ok` results carrying the untouched state;
raised constraint violations are `.error`. -/
def transferBody (db : DB) (p : TransferArgs) :
    Except SqlError (TransferResult × DB) :=
  match db.accounts.find? (senderPred p) with
  | none =>
      Except.ok (TransferResult.failure TransferError.senderNotFoundOrInactive, db)
  | some sender =>
      if receiverActive db p.receiver = false then
        Except.ok (TransferResult.failure TransferError.receiverNotFoundOrInactive, db)
      else if sender.balance < p.amount then
        Except.ok (TransferResult.failure TransferError.insufficientBalance, db)
      else if dailyCompletedTotal db p.sender + p.amount > sender.daily_transfer_limit then
        Except.ok (TransferResult.failure TransferError.dailyLimitExceeded, db)
      else
        match insertTransaction db p with
        | Except.error e => Except.error e
        | Except.ok (txId, db1) =>
            match applyBalanceDelta db1 p.sender (-p.amount) with
            | Except.error e => Except.error e
            | Except.ok db2 =>
                match applyBalanceDelta db2 p.receiver p.amount with
                | Except.error e => Except.error e
                | Except.ok db3 =>
                    Except.ok (TransferResult.success txId, markCompleted db3 txId)

/-- transfer_money from src/database/schema.sql: the body inside the
function's implicit transaction, with EXCEPTION WHEN OTHERS catching any
raised error, rolling back every write of the body (PL/pgSQL block
semantics) and returning json success=false with SQLERRM. -/
def transfer_money (db : DB) (p : TransferArgs) : TransferResult × DB :=
  match transferBody db p with
  | Except.ok r => r
  | Except.error e => (TransferResult.failure (TransferError.sqlError e), db)

/-- The database state produced by a successful `transfer_money` run:
PENDING row inserted, sender debited, receiver credited, row marked
COMPLETED. -/
def successState (db : DB) (p : TransferArgs) : DB :=
  markCompleted
    { db with
        accounts :=
          updateAccounts (updateAccounts db.accounts p.sender (-p.amount))
            p.receiver p.amount
        transactions := db.transactions ++ [pendingTxn db p]
        next_txn_id := db.next_txn_id + 1 }
    db.next_txn_id

/-- The balance of the account row with the given id (None when the id is
absent). -/
def balanceOf (db : DB) (i : Nat) : Option Int :=
  (db.accounts.find? fun a => a.account_id == i).map (·.balance)

/-- Sum of all account balances. -/
def totalBalance (db : DB) : Int :=
  (db.accounts.map (·.balance)).sum

/-- Run a sequence of transfer requests, keeping each call's resulting
state. -/
def runTransfers (db : DB) (reqs : List TransferArgs) : DB :=
  reqs.foldl (fun d q => (transfer_money d q).2) db

/-- The interfering committed write posited by the spec's
ConstraintViolation scenario: another transaction adjusts the sender's
stored balance.  It is a bare UPDATE image with no constraint replay of
our own writes. -/
def raceWrite (db : DB) (i : Nat) (d : Int) : DB :=
  { db with accounts := updateAccounts db.accounts i d }

/-- `transfer_money` under the race the spec describes for its
ConstraintViolation error: a concurrent writer's update of the sender row
(delta `raceDelta`) lands between the sufficiency check and the debiting
UPDATE, so the debit can trip CHECK (balance >= 0) even though the check
passed.  With `raceDelta = 0` this is exactly `transfer_money`.  On an
exception the function's own writes roll back while the concurrent
committed write persists. -/
def transfer_money_raced (db : DB) (p : TransferArgs) (raceDelta : Int) :
    TransferResult × DB :=
  let body : Except SqlError (TransferResult × DB) :=
    match db.accounts.find? (senderPred p) with
    | none =>
        Except.ok (TransferResult.failure TransferError.senderNotFoundOrInactive, db)
    | some sender =>
        if receiverActive db p.receiver = false then
          Except.ok (TransferResult.failure TransferError.receiverNotFoundOrInactive, db)
        else if sender.balance < p.amount then
          Except.ok (TransferResult.failure TransferError.insufficientBalance, db)
        else if dailyCompletedTotal db p.sender + p.amount > sender.daily_transfer_limit then
          Except.ok (TransferResult.failure TransferError.dailyLimitExceeded, db)
        else
          match insertTransaction db p with
          | Except.error e => Except.error e
          | Except.ok (txId, db1) =>
              match applyBalanceDelta (raceWrite db1 p.sender raceDelta)
                  p.sender (-p.amount) with
              | Except.error e => Except.error e
              | Except.ok db2 =>
                  match applyBalanceDelta db2 p.receiver p.amount with
                  | Except.error e => Except.error e
                  | Except.ok db3 =>
                      Except.ok (TransferResult.success txId, markCompleted db3 txId)
  match body with
  | Except.ok r => r
  | Except.error e =>
      (TransferResult.failure (TransferError.sqlError e), raceWrite db p.sender raceDelta)

end Ledger

namespace Demo

/-- An element of the demoAccounts array of src/js/app_demo.js (the
fields `transferMoney` touches; statuses and currencies are the literal
strings the code compares). -/
structure DemoAccount where
  account_id : Nat
  user_id : Nat
  account_number : String
  balance_slsh : Int
  balance_usd : Int
  status : String
deriving DecidableEq

/-- An element of the demoTransactions array as pushed by
`transferMoney`. -/
structure DemoTxn where
  sender_account_id : Option Nat
  receiver_account_id : Option Nat
  amount : Int
  currency : String
  transaction_type : String
  status : String
  description : String
deriving DecidableEq

/-- The mutable demo state `transferMoney` reads and writes (the
reference-number randomness, alerts, toasts and DOM refreshes carry no
claim-relevant data and are not modelled). -/
structure DemoState where
  demoAccounts : List DemoAccount
  demoTransactions : List DemoTxn
deriving DecidableEq

/-- transferMoney(receiverAccount, amount, description) from
src/js/app_demo.js lines 534-593, for the logged-in user `userId`:
sender is the user's first ACTIVE account, receiver is resolved by
account number, the only validation is balance_slsh >= amount, balances
are mutated in SLSH only and the transaction is recorded directly as
COMPLETED.  The JS mutates the two found row objects in place; here the
same two rows are addressed by their account_id (unique by
construction), so a self-transfer nets to zero exactly as in the JS. -/
def transferMoney (s : DemoState) (userId : Nat) (receiverAccount : String)
    (amount : Int) (description : String) : Bool × DemoState :=
  match s.demoAccounts.find? fun a =>
      a.user_id == userId && a.status == "ACTIVE" with
  | none => (false, s)
  | some senderAccount =>
      match s.demoAccounts.find? fun a =>
          a.account_number == receiverAccount && a.status == "ACTIVE" with
      | none => (false, s)
      | some receiverAcc =>
          if senderAccount.balance_slsh < amount then (false, s)
          else
            (true,
             { demoAccounts := s.demoAccounts.map fun a =>
                 { a with balance_slsh := a.balance_slsh
                     + (if a.account_id == senderAccount.account_id then -amount else 0)
                     + (if a.account_id == receiverAcc.account_id then amount else 0) }
               demoTransactions := s.demoTransactions ++ [{
                 sender_account_id := some senderAccount.account_id
                 receiver_account_id := some receiverAcc.account_id
                 amount := amount
                 currency := "SLSH"
                 transaction_type := "TRANSFER"
                 status := "COMPLETED"
                 description := description }] })

end Demo

namespace Ledger

/-! Concrete sample states used by witnesses and counterexamples. -/

/-- A 100-unit ACTIVE account with id 1 and a 1000 daily limit. -/
def acctA : Account :=
  { account_id := 1, balance := 100, status := AccountStatus.active
    daily_transfer_limit := 1000 }

/-- A 100-unit ACTIVE account with id 2 and a 1000 daily limit. -/
def acctB : Account :=
  { account_id := 2, balance := 100, status := AccountStatus.active
    daily_transfer_limit := 1000 }

/-- Two fresh active accounts, no transactions. -/
def dbAB : DB :=
  { accounts := [acctA, acctB], transactions := [], current_date := 0
    next_txn_id := 1 }

/-- One fresh active account, no transactions. -/
def dbSelf : DB :=
  { accounts := [acctA], transactions := [], current_date := 0
    next_txn_id := 1 }

/-- Transfer 40 from account 1 to account 2, reference R1. -/
def argsAB : TransferArgs :=
  { sender := 1, receiver := 2, amount := 40, description := "d"
    reference_number := "R1" }

/-- Self-transfer of 40 on account 1. -/
def argsSelf : TransferArgs :=
  { sender := 1, receiver := 1, amount := 40, description := "d"
    reference_number := "R1" }

/-- A zero-amount request from account 1 to account 2. -/
def argsZero : TransferArgs :=
  { sender := 1, receiver := 2, amount := 0, description := "d"
    reference_number := "R1" }

/-- A request for more than account 1 holds (150 > 100). -/
def argsBig : TransferArgs :=
  { sender := 1, receiver := 2, amount := 150, description := "d"
    reference_number := "R1" }

/-- A 500-unit ACTIVE account with id 1 and a 1000 daily limit. -/
def acctL : Account :=
  { account_id := 1, balance := 500, status := AccountStatus.active
    daily_transfer_limit := 1000 }

/-- A COMPLETED 900-unit transfer from account 1, created today. -/
def txn900 : Txn :=
  { transaction_id := 0, sender_account_id := some 1
    receiver_account_id := some 2, amount := 900
    transaction_type := TxnType.transfer, status := TxnStatus.completed
    description := "", reference_number := "R0", created_date := 0 }

/-- Account 1 has already transferred 900 today against a 1000 limit. -/
def dbLimit : DB :=
  { accounts := [acctL, acctB], transactions := [txn900], current_date := 0
    next_txn_id := 1 }

end Ledger

namespace Demo

/-- A single ACTIVE demo account (user 7, number SL1, 100 SLSH, 50 USD). -/
def demoAcct : DemoAccount :=
  { account_id := 1, user_id := 7, account_number := "SL1"
    balance_slsh := 100, balance_usd := 50, status := "ACTIVE" }

/-- Demo state holding just that account and no transactions. -/
def demoS : DemoState :=
  { demoAccounts := [demoAcct], demoTransactions := [] }

end Demo

namespace Ledger

/-! Helper lemmas about the store operations. -/

/-- Updating a balance never changes a row's account_id. -/
theorem acct_id_update (a : Account) (i : Nat) (d : Int) :
    (if a.account_id == i then { a with balance := a.balance + d } else a).account_id
      = a.account_id := by
  split <;> rfl

/-- UPDATE ... SET balance keeps the multiset of account ids. -/
theorem updateAccounts_ids (l : List Account) (i : Nat) (d : Int) :
    (updateAccounts l i d).map (·.account_id) = l.map (·.account_id) := by
  unfold updateAccounts
  rw [List.map_map]
  exact List.map_congr_left fun a _ => acct_id_update a i d

/-- A balance UPDATE touching no present id is the identity. -/
theorem updateAccounts_eq_self (l : List Account) (i : Nat) (d : Int)
    (h : ∀ a ∈ l, a.account_id ≠ i) : updateAccounts l i d = l := by
  unfold updateAccounts
  induction l with
  | nil => rfl
  | cons a l ih =>
      simp only [List.map_cons]
      have ha : (a.account_id == i) = false := by
        simpa using h a (List.mem_cons_self a l)
      rw [ha]
      simp only [if_neg Bool.false_ne_true]
      rw [ih fun b hb => h b (List.mem_cons_of_mem a hb)]

/-- find? by account id commutes with a balance UPDATE. -/
theorem find?_updateAccounts (l : List Account) (i j : Nat) (d : Int) :
    (updateAccounts l j d).find? (fun a => a.account_id == i) =
      (l.find? fun a => a.account_id == i).map
        (fun a => if a.account_id == j then { a with balance := a.balance + d } else a) := by
  unfold updateAccounts
  rw [List.find?_map]
  have hp : ((fun a : Account => a.account_id == i) ∘ fun a : Account =>
      if a.account_id == j then { a with balance := a.balance + d } else a)
      = fun a : Account => a.account_id == i := by
    funext a
    simp only [Function.comp_apply]
    split <;> rfl
  rw [hp]

/-- With no duplicate ids, find? by id returns any member carrying the
id. -/
theorem find?_id_of_mem (l : List Account) (a : Account) (i : Nat)
    (hN : (l.map (·.account_id)).Nodup) (ha : a ∈ l) (hi : a.account_id = i) :
    l.find? (fun x => x.account_id == i) = some a := by
  induction l with
  | nil => cases ha
  | cons b l ih =>
      rcases List.mem_cons.mp ha with rfl | ha'
      · exact List.find?_cons_of_pos _ (by simp [hi])
      · have hbi : (b.account_id == i) = false := by
          have hnotin : b.account_id ∉ l.map (·.account_id) :=
            (List.nodup_cons.mp (by simpa using hN)).1
          have : a.account_id ∈ l.map (·.account_id) :=
            List.mem_map.mpr ⟨a, ha', rfl⟩
          simp only [beq_eq_false_iff_ne, ne_eq]
          rintro rfl
          exact hnotin (hi ▸ this)
        rw [List.find?_cons_of_neg _ (by simp [hbi])]
        exact ih (List.nodup_cons.mp (by simpa using hN)).2 ha'

/-- With no duplicate ids, an `any` over rows with a given id evaluates
the tested property at the unique member carrying the id. -/
theorem any_id_of_mem (l : List Account) (a : Account) (i : Nat)
    (q : Account → Bool)
    (hN : (l.map (·.account_id)).Nodup) (ha : a ∈ l) (hi : a.account_id = i) :
    (l.any fun x => x.account_id == i && q x) = q a := by
  induction l with
  | nil => cases ha
  | cons b l ih =>
      rcases List.mem_cons.mp ha with rfl | ha'
      · have hq : (a.account_id == i) = true := by simp [hi]
        cases hqa : q a
        · simp only [List.any_cons, hq, hqa, Bool.and_false, Bool.false_or]
          have hnotin : a.account_id ∉ l.map (·.account_id) :=
            (List.nodup_cons.mp (by simpa using hN)).1
          rw [List.any_eq_false]
          rintro x hx hqx
          simp only [Bool.and_eq_true] at hqx
          have hx_id : x.account_id = i := by simpa using hqx.1
          exact hnotin (List.mem_map.mpr ⟨x, hx, by rw [hx_id, hi]⟩)
        · simp [List.any_cons, hq, hqa]
      · have hbi : (b.account_id == i) = false := by
          have hnotin : b.account_id ∉ l.map (·.account_id) :=
            (List.nodup_cons.mp (by simpa using hN)).1
          have hmem : a.account_id ∈ l.map (·.account_id) :=
            List.mem_map.mpr ⟨a, ha', rfl⟩
          simp only [beq_eq_false_iff_ne, ne_eq]
          rintro rfl
          exact hnotin (hi ▸ hmem)
        simp only [List.any_cons, hbi, Bool.false_and, Bool.false_or]
        exact ih (List.nodup_cons.mp (by simpa using hN)).2 ha'

/-- With no duplicate ids and the target id present, a balance UPDATE
shifts the total balance by exactly its delta. -/
theorem sum_updateAccounts (l : List Account) (i : Nat) (d : Int)
    (a : Account)
    (hN : (l.map (·.account_id)).Nodup) (ha : a ∈ l) (hi : a.account_id = i) :
    ((updateAccounts l i d).map (·.balance)).sum
      = (l.map (·.balance)).sum + d := by
  induction l with
  | nil => cases ha
  | cons b l ih =>
      have hN1 : b.account_id ∉ l.map (·.account_id) :=
        (List.nodup_cons.mp (by simpa using hN)).1
      have hN2 : (l.map (·.account_id)).Nodup :=
        (List.nodup_cons.mp (by simpa using hN)).2
      rcases List.mem_cons.mp ha with rfl | ha'
      · have hb : (a.account_id == i) = true := by simp [hi]
        have htail : updateAccounts l i d = l := by
          apply updateAccounts_eq_self
          intro x hx hxi
          exact hN1 (by
            rw [hi]
            exact hxi ▸ List.mem_map.mpr ⟨x, hx, rfl⟩)
        unfold updateAccounts
        simp only [List.map_cons, hb, if_pos, List.sum_cons]
        have : (List.map (fun x =>
            if x.account_id == i then { x with balance := x.balance + d } else x) l)
            = l := htail
        rw [this]
        omega
      · have hbi : (b.account_id == i) = false := by
          simp only [beq_eq_false_iff_ne, ne_eq]
          rintro rfl
          exact hN1 (hi ▸ List.mem_map.mpr ⟨a, ha', rfl⟩)
        unfold updateAccounts
        simp only [List.map_cons, hbi, List.sum_cons]
        simp only [if_neg Bool.false_ne_true]
        have := ih hN2 ha'
        unfold updateAccounts at this
        omega

/-- A balance UPDATE whose CHECK guard is clear preserves row
non-negativity. -/
theorem nonneg_updateAccounts (l : List Account) (i : Nat) (d : Int)
    (h0 : ∀ a ∈ l, 0 ≤ a.balance)
    (hg : (l.any fun a => a.account_id == i && decide (a.balance + d < 0)) = false) :
    ∀ a ∈ updateAccounts l i d, 0 ≤ a.balance := by
  intro x hx
  unfold updateAccounts at hx
  rcases List.mem_map.mp hx with ⟨b, hb, rfl⟩
  rw [List.any_eq_false] at hg
  split
  · have h1 := hg b hb
    simp only [Bool.and_eq_true, decide_eq_true_eq, not_and] at h1
    have h2 : ¬ b.balance + d < 0 := by
      intro hlt
      next hbi => exact h1 hbi hlt
    show 0 ≤ b.balance + d
    omega
  · exact h0 b hb

/-- Inversion of a successful INSERT INTO transactions. -/
theorem insertTransaction_ok (db : DB) (p : TransferArgs) (t : Nat) (db1 : DB)
    (h : insertTransaction db p = Except.ok (t, db1)) :
    0 < p.amount ∧
    (db.transactions.any fun x => x.reference_number == p.reference_number) = false ∧
    t = db.next_txn_id ∧
    db1 = { db with
        transactions := db.transactions ++ [pendingTxn db p]
        next_txn_id := db.next_txn_id + 1 } := by
  unfold insertTransaction at h
  split_ifs at h with h1 h2
  cases h
  exact ⟨by omega, by simpa using h2, rfl, rfl⟩

/-- Inversion of a balance UPDATE that did not trip CHECK (balance >= 0). -/
theorem applyBalanceDelta_ok (db : DB) (i : Nat) (d : Int) (db' : DB)
    (h : applyBalanceDelta db i d = Except.ok db') :
    (db.accounts.any fun a => a.account_id == i && decide (a.balance + d < 0)) = false ∧
    db' = { db with accounts := updateAccounts db.accounts i d } := by
  unfold applyBalanceDelta at h
  split_ifs at h with h1
  cases h
  exact ⟨by simpa using h1, rfl⟩

/-- Complete case split of a `transfer_money` run: either some failure is
returned with the state untouched, or all the checks passed and the
successful run produced exactly `successState`. -/
theorem transfer_money_shape (db : DB) (p : TransferArgs) :
    (∃ e, transfer_money db p = (TransferResult.failure e, db)) ∨
    (∃ a, db.accounts.find? (senderPred p) = some a ∧
      receiverActive db p.receiver = true ∧
      ¬ a.balance < p.amount ∧
      ¬ dailyCompletedTotal db p.sender + p.amount > a.daily_transfer_limit ∧
      0 < p.amount ∧
      (db.transactions.any fun t => t.reference_number == p.reference_number) = false ∧
      (db.accounts.any fun x =>
        x.account_id == p.sender && decide (x.balance + -p.amount < 0)) = false ∧
      ((updateAccounts db.accounts p.sender (-p.amount)).any fun x =>
        x.account_id == p.receiver && decide (x.balance + p.amount < 0)) = false ∧
      transfer_money db p = (TransferResult.success db.next_txn_id, successState db p)) := by
  cases hf : db.accounts.find? (senderPred p) with
  | none =>
      left
      refine ⟨TransferError.senderNotFoundOrInactive, ?_⟩
      unfold transfer_money transferBody
      rw [hf]
  | some sender =>
      by_cases hr : receiverActive db p.receiver = false
      · left
        refine ⟨TransferError.receiverNotFoundOrInactive, ?_⟩
        unfold transfer_money transferBody
        rw [hf]
        simp [hr]
      · by_cases hb : sender.balance < p.amount
        · left
          refine ⟨TransferError.insufficientBalance, ?_⟩
          unfold transfer_money transferBody
          rw [hf]
          simp [hr, hb]
        · by_cases hd : dailyCompletedTotal db p.sender + p.amount >
              sender.daily_transfer_limit
          · left
            refine ⟨TransferError.dailyLimitExceeded, ?_⟩
            unfold transfer_money transferBody
            rw [hf]
            simp [hr, hb, hd]
          · have hr' : receiverActive db p.receiver = true := by
              cases hh : receiverActive db p.receiver
              · exact absurd hh hr
              · rfl
            cases hins : insertTransaction db p with
            | error e =>
                left
                refine ⟨TransferError.sqlError e, ?_⟩
                unfold transfer_money transferBody
                rw [hf]
                simp [hr, hb, hd, hins]
            | ok pr =>
                obtain ⟨txId, db1⟩ := pr
                obtain ⟨hpos, href, htx, hdb1⟩ :=
                  insertTransaction_ok db p txId db1 hins
                cases hupd1 : applyBalanceDelta db1 p.sender (-p.amount) with
                | error e =>
                    left
                    refine ⟨TransferError.sqlError e, ?_⟩
                    unfold transfer_money transferBody
                    rw [hf]
                    simp [hr, hb, hd, hins, hupd1]
                | ok db2 =>
                    obtain ⟨hg1, hdb2⟩ :=
                      applyBalanceDelta_ok db1 p.sender (-p.amount) db2 hupd1
                    cases hupd2 : applyBalanceDelta db2 p.receiver p.amount with
                    | error e =>
                        left
                        refine ⟨TransferError.sqlError e, ?_⟩
                        unfold transfer_money transferBody
                        rw [hf]
                        simp [hr, hb, hd, hins, hupd1, hupd2]
                    | ok db3 =>
                        obtain ⟨hg2, hdb3⟩ :=
                          applyBalanceDelta_ok db2 p.receiver p.amount db3 hupd2
                        right
                        refine ⟨sender, rfl, hr', hb, hd, hpos, href, ?_, ?_, ?_⟩
                        · have hacc : db1.accounts = db.accounts := by rw [hdb1]
                          rw [← hacc]
                          exact hg1
                        · have hacc : db2.accounts =
                              updateAccounts db.accounts p.sender (-p.amount) := by
                            rw [hdb2, hdb1]
                          rw [← hacc]
                          exact hg2
                        · unfold transfer_money transferBody
                          rw [hf]
                          simp only [hr', hb, hd, hins, hupd1, hupd2]
                          simp [htx, hdb3, hdb2, hdb1, successState, markCompleted,
                            updateAccounts]

/-- The accounts component of the success state. -/
theorem successState_accounts (db : DB) (p : TransferArgs) :
    (successState db p).accounts =
      updateAccounts (updateAccounts db.accounts p.sender (-p.amount))
        p.receiver p.amount := rfl

/-- The transactions component of the success state. -/
theorem successState_transactions (db : DB) (p : TransferArgs) :
    (successState db p).transactions =
      (db.transactions ++ [pendingTxn db p]).map fun t =>
        if t.transaction_id == db.next_txn_id then
          { t with status := TxnStatus.completed }
        else t := rfl

/-- Marking a transaction COMPLETED never changes its reference number. -/
theorem ref_mark (t : Txn) (n : Nat) :
    (if t.transaction_id == n then { t with status := TxnStatus.completed }
      else t).reference_number = t.reference_number := by
  split <;> rfl

/-- Any non-success run of transfer_money leaves the database unchanged. -/
theorem rollback_of_failure (db : DB) (p : TransferArgs)
    (h : (transfer_money db p).1.isSuccess = false) :
    (transfer_money db p).2 = db := by
  rcases transfer_money_shape db p with ⟨e, he⟩ | ⟨a, -, -, -, -, -, -, -, -, he⟩
  · rw [he]
  · rw [he] at h
    simp [TransferResult.isSuccess] at h

/-- Inversion of a successful transfer_money run. -/
theorem transfer_money_success_inv (db : DB) (p : TransferArgs) (tid : Nat)
    (h : (transfer_money db p).1 = TransferResult.success tid) :
    tid = db.next_txn_id ∧
    (transfer_money db p).2 = successState db p ∧
    (∃ a, db.accounts.find? (senderPred p) = some a ∧
      receiverActive db p.receiver = true ∧
      ¬ a.balance < p.amount ∧
      ¬ dailyCompletedTotal db p.sender + p.amount > a.daily_transfer_limit) ∧
    0 < p.amount ∧
    (db.transactions.any fun t => t.reference_number == p.reference_number) = false := by
  rcases transfer_money_shape db p with ⟨e, he⟩ | ⟨a, h1, h2, h3, h4, h5, h6, -, -, he⟩
  · rw [he] at h
    cases h
  · rw [he] at h ⊢
    cases h
    exact ⟨rfl, rfl, ⟨a, h1, h2, h3, h4⟩, h5, h6⟩

/-- transfer_money preserves the list of account ids. -/
theorem accounts_ids_transfer (db : DB) (p : TransferArgs) :
    (transfer_money db p).2.accounts.map (·.account_id) =
      db.accounts.map (·.account_id) := by
  rcases transfer_money_shape db p with ⟨e, he⟩ | ⟨a, -, -, -, -, -, -, -, -, he⟩
  · rw [he]
  · rw [he, successState_accounts, updateAccounts_ids, updateAccounts_ids]

/-- With unique account ids, transfer_money preserves the total of all
balances (failures change nothing; a success debits and credits the same
amount). -/
theorem totalBalance_transfer (db : DB) (p : TransferArgs)
    (hN : (db.accounts.map (·.account_id)).Nodup) :
    totalBalance (transfer_money db p).2 = totalBalance db := by
  rcases transfer_money_shape db p with ⟨e, he⟩ | ⟨a, hfind, hrecv, -, -, -, -, -, -, he⟩
  · rw [he]
  · rw [he]
    have hamem : a ∈ db.accounts := List.mem_of_find?_eq_some hfind
    have haid : a.account_id = p.sender := by
      have hp := List.find?_some hfind
      unfold senderPred at hp
      simp only [Bool.and_eq_true] at hp
      simpa using hp.1
    have hrex : ∃ r, r ∈ db.accounts ∧ r.account_id = p.receiver := by
      unfold receiverActive at hrecv
      rw [List.any_eq_true] at hrecv
      obtain ⟨r, hrmem, hrpred⟩ := hrecv
      simp only [Bool.and_eq_true] at hrpred
      exact ⟨r, hrmem, by simpa using hrpred.1⟩
    obtain ⟨r, hrmem, hrid⟩ := hrex
    have hN1 : ((updateAccounts db.accounts p.sender (-p.amount)).map
        (·.account_id)).Nodup := by
      rw [updateAccounts_ids]
      exact hN
    have hr1mem : (if r.account_id == p.sender then
        { r with balance := r.balance + -p.amount } else r)
        ∈ updateAccounts db.accounts p.sender (-p.amount) :=
      List.mem_map.mpr ⟨r, hrmem, rfl⟩
    have hr1id : (if r.account_id == p.sender then
        { r with balance := r.balance + -p.amount } else r).account_id
        = p.receiver := by
      rw [acct_id_update]
      exact hrid
    unfold totalBalance
    rw [successState_accounts,
      sum_updateAccounts _ _ _ _ hN1 hr1mem hr1id,
      sum_updateAccounts _ _ _ a hN hamem haid]
    omega

/-- With unique account ids, any sequence of transfer_money calls
preserves the total of all balances. -/
theorem totalBalance_runTransfers (reqs : List TransferArgs) (db : DB)
    (hN : (db.accounts.map (·.account_id)).Nodup) :
    totalBalance (runTransfers db reqs) = totalBalance db := by
  induction reqs generalizing db with
  | nil => rfl
  | cons q reqs ih =>
      have hN' : ((transfer_money db q).2.accounts.map (·.account_id)).Nodup := by
        rw [accounts_ids_transfer]
        exact hN
      unfold runTransfers
      rw [List.foldl_cons]
      have hstep := totalBalance_transfer db q hN
      have := ih ((transfer_money db q).2) hN'
      unfold runTransfers at this
      rw [this, hstep]

/-- A transfer whose reference number is already present can never
succeed: the unique index on reference_number blocks the insert. -/
theorem no_success_of_ref_present (db : DB) (p : TransferArgs)
    (h : (db.transactions.any fun t =>
      t.reference_number == p.reference_number) = true) :
    (transfer_money db p).1.isSuccess = false := by
  rcases transfer_money_shape db p with ⟨e, he⟩ | ⟨a, -, -, -, -, -, href, -, -, he⟩
  · rw [he]
    rfl
  · rw [href] at h
    cases h

/-- After a successful transfer the reference number is present in the
transaction log. -/
theorem ref_present_after_success (db : DB) (p : TransferArgs) (tid : Nat)
    (h : (transfer_money db p).1 = TransferResult.success tid) :
    ((transfer_money db p).2.transactions.any fun t =>
      t.reference_number == p.reference_number) = true := by
  obtain ⟨-, hstate, -, -, -⟩ := transfer_money_success_inv db p tid h
  rw [hstate, successState_transactions, List.any_eq_true]
  refine ⟨(fun t => if t.transaction_id == db.next_txn_id then
      { t with status := TxnStatus.completed } else t) (pendingTxn db p),
    List.mem_map.mpr ⟨pendingTxn db p,
      List.mem_append_right _ (List.mem_singleton.mpr rfl), rfl⟩, ?_⟩
  rw [ref_mark]
  simp [pendingTxn]

/-- Effect of a successful run on the balance of an arbitrary account id
(the debit applies when the id is the sender, the credit when it is the
receiver, both when the transfer is a self-transfer). -/
theorem balanceOf_successState (db : DB) (p : TransferArgs) (i : Nat) :
    balanceOf (successState db p) i = (balanceOf db i).map fun b =>
      b + (if i = p.sender then -p.amount else 0)
        + (if i = p.receiver then p.amount else 0) := by
  unfold balanceOf
  rw [successState_accounts, find?_updateAccounts, find?_updateAccounts]
  cases hfind : db.accounts.find? (fun x => x.account_id == i) with
  | none => rfl
  | some x =>
      have hxid : x.account_id = i := by simpa using List.find?_some hfind
      subst hxid
      cases hb1 : (x.account_id == p.sender) <;>
        cases hb2 : (x.account_id == p.receiver)
      · have hp1 : ¬ x.account_id = p.sender := by simpa using hb1
        have hp2 : ¬ x.account_id = p.receiver := by simpa using hb2
        simp [hb1, hb2, hp1, hp2]
      · have hp1 : ¬ x.account_id = p.sender := by simpa using hb1
        have hp2 : x.account_id = p.receiver := by simpa using hb2
        simp [hp1, ← hp2]
      · have hp1 : x.account_id = p.sender := by simpa using hb1
        have hp2 : ¬ x.account_id = p.receiver := by simpa using hb2
        simp [← hp1, hp2]
      · have hp1 : x.account_id = p.sender := by simpa using hb1
        have hp2 : x.account_id = p.receiver := by simpa using hb2
        simp [← hp1, ← hp2]

/-- A successful run appends exactly one reference number to the log. -/
theorem successState_refs (db : DB) (p : TransferArgs) :
    (successState db p).transactions.map (·.reference_number) =
      db.transactions.map (·.reference_number) ++ [p.reference_number] := by
  rw [successState_transactions, List.map_map]
  have hcomp : ((fun x : Txn => x.reference_number) ∘ fun t : Txn =>
      if t.transaction_id == db.next_txn_id then
        { t with status := TxnStatus.completed } else t)
      = fun t : Txn => t.reference_number := by
    funext t
    simp only [Function.comp_apply]
    exact ref_mark t db.next_txn_id
  rw [hcomp, List.map_append]
  rfl

/-- An INSERT with a positive amount and a fresh reference number
succeeds and appends the PENDING row. -/
theorem insertTransaction_of (db : DB) (p : TransferArgs)
    (hpos : 0 < p.amount)
    (href : (db.transactions.any fun t =>
      t.reference_number == p.reference_number) = false) :
    insertTransaction db p = Except.ok (db.next_txn_id,
      { db with
          transactions := db.transactions ++ [pendingTxn db p]
          next_txn_id := db.next_txn_id + 1 }) := by
  unfold insertTransaction
  rw [if_neg (by omega), if_neg (by rw [href]; exact Bool.false_ne_true)]

/-- A balance UPDATE whose CHECK guard is clear returns the updated
rows. -/
theorem applyBalanceDelta_guard_false (db : DB) (i : Nat) (d : Int)
    (h : (db.accounts.any fun a =>
      a.account_id == i && decide (a.balance + d < 0)) = false) :
    applyBalanceDelta db i d =
      Except.ok { db with accounts := updateAccounts db.accounts i d } := by
  unfold applyBalanceDelta
  rw [if_neg (by rw [h]; exact Bool.false_ne_true)]

/-- A balance UPDATE whose CHECK guard trips raises the constraint
violation. -/
theorem applyBalanceDelta_guard_true (db : DB) (i : Nat) (d : Int)
    (h : (db.accounts.any fun a =>
      a.account_id == i && decide (a.balance + d < 0)) = true) :
    applyBalanceDelta db i d =
      Except.error SqlError.checkViolationBalanceNonneg := by
  unfold applyBalanceDelta
  rw [if_pos h]

/-- Forward computation of a fully-validated transfer: with every check
and constraint guard clear, transfer_money succeeds and produces exactly
the success state. -/
theorem transfer_money_success_of (db : DB) (p : TransferArgs) (a : Account)
    (hfind : db.accounts.find? (senderPred p) = some a)
    (hrecv : receiverActive db p.receiver = true)
    (hbal : ¬ a.balance < p.amount)
    (hdaily : ¬ dailyCompletedTotal db p.sender + p.amount > a.daily_transfer_limit)
    (hpos : 0 < p.amount)
    (href : (db.transactions.any fun t =>
      t.reference_number == p.reference_number) = false)
    (hg1 : (db.accounts.any fun x =>
      x.account_id == p.sender && decide (x.balance + -p.amount < 0)) = false)
    (hg2 : ((updateAccounts db.accounts p.sender (-p.amount)).any fun x =>
      x.account_id == p.receiver && decide (x.balance + p.amount < 0)) = false) :
    transfer_money db p =
      (TransferResult.success db.next_txn_id, successState db p) := by
  have hins := insertTransaction_of db p hpos href
  have hup1 := applyBalanceDelta_guard_false
    { db with
        transactions := db.transactions ++ [pendingTxn db p]
        next_txn_id := db.next_txn_id + 1 } p.sender (-p.amount) hg1
  have hup2 := applyBalanceDelta_guard_false
    { db with
        accounts := updateAccounts db.accounts p.sender (-p.amount)
        transactions := db.transactions ++ [pendingTxn db p]
        next_txn_id := db.next_txn_id + 1 } p.receiver p.amount hg2
  unfold transfer_money transferBody
  rw [hfind]
  dsimp only
  rw [if_neg (by simp [hrecv]), if_neg hbal, if_neg hdaily, hins]
  dsimp only
  rw [hup1]
  dsimp only
  rw [hup2]
  dsimp only
  rfl

/-- Forward computation of the raced run the spec's ConstraintViolation
scenario describes: every business check passes, the insert lands, but
the interfering committed write makes the debit trip CHECK (balance >=
0); the blanket handler then reports the raw store error and only the
interfering write survives. -/
theorem transfer_money_raced_generic (db : DB) (p : TransferArgs)
    (a : Account) (d : Int)
    (hfind : db.accounts.find? (senderPred p) = some a)
    (hrecv : receiverActive db p.receiver = true)
    (hbal : ¬ a.balance < p.amount)
    (hdaily : ¬ dailyCompletedTotal db p.sender + p.amount > a.daily_transfer_limit)
    (hpos : 0 < p.amount)
    (href : (db.transactions.any fun t =>
      t.reference_number == p.reference_number) = false)
    (hN : (db.accounts.map (·.account_id)).Nodup)
    (hneg : a.balance + d + -p.amount < 0) :
    transfer_money_raced db p d =
      (TransferResult.failure (TransferError.sqlError
        SqlError.checkViolationBalanceNonneg),
       raceWrite db p.sender d) := by
  have hins := insertTransaction_of db p hpos href
  have hamem : a ∈ db.accounts := List.mem_of_find?_eq_some hfind
  have haid : a.account_id = p.sender := by
    have hp := List.find?_some hfind
    unfold senderPred at hp
    simp only [Bool.and_eq_true] at hp
    simpa using hp.1
  have hmem1 : (if a.account_id == p.sender then
      { a with balance := a.balance + d } else a)
      ∈ updateAccounts db.accounts p.sender d :=
    List.mem_map.mpr ⟨a, hamem, rfl⟩
  have hid1 : (if a.account_id == p.sender then
      { a with balance := a.balance + d } else a).account_id = p.sender := by
    rw [acct_id_update]
    exact haid
  have hN1 : ((updateAccounts db.accounts p.sender d).map (·.account_id)).Nodup := by
    rw [updateAccounts_ids]
    exact hN
  have hguard : ((updateAccounts db.accounts p.sender d).any fun x =>
      x.account_id == p.sender && decide (x.balance + -p.amount < 0)) = true := by
    rw [any_id_of_mem _ _ _ _ hN1 hmem1 hid1]
    have hT : (a.account_id == p.sender) = true := by simp [haid]
    rw [hT]
    simp only [if_pos]
    exact decide_eq_true hneg
  have herr := applyBalanceDelta_guard_true
    (raceWrite { db with
        transactions := db.transactions ++ [pendingTxn db p]
        next_txn_id := db.next_txn_id + 1 } p.sender d) p.sender (-p.amount) hguard
  unfold transfer_money_raced
  dsimp only
  rw [hfind]
  dsimp only
  rw [if_neg (by simp [hrecv]), if_neg hbal, if_neg hdaily, hins]
  dsimp only
  rw [herr]

/-! The claims. -/

/-- C1: for every transfer_money call whose outcome is not success, the
persistent state is unchanged — no transaction row is created or
survives and no account balance is modified (full rollback, no partial
writes). -/
theorem transfer_money_rollback_on_failure (db : DB) (p : TransferArgs)
    (h : (transfer_money db p).1.isSuccess = false) :
    (transfer_money db p).2 = db :=
  rollback_of_failure db p h

/-- Witness for C1: the rejected oversized transfer leaves the two-account
database untouched. -/
theorem transfer_money_rollback_on_failure_witness :
    (transfer_money dbAB argsBig).1.isSuccess = false ∧
    (transfer_money dbAB argsBig).2 = dbAB :=
  ⟨by decide, transfer_money_rollback_on_failure dbAB argsBig (by decide)⟩

/-- C2: for every successful transfer of amount a with sender distinct
from receiver, the sender's balance drops by exactly a, the receiver's
rises by exactly a, the grand total of balances is unchanged, and the
total stays unchanged across any sequence of transfer_money calls. -/
theorem transfer_money_conservation (db : DB) (p : TransferArgs) (tid : Nat)
    (hN : (db.accounts.map (·.account_id)).Nodup)
    (hs : (transfer_money db p).1 = TransferResult.success tid)
    (hne : p.sender ≠ p.receiver) :
    balanceOf (transfer_money db p).2 p.sender =
      (balanceOf db p.sender).map (fun b => b - p.amount) ∧
    balanceOf (transfer_money db p).2 p.receiver =
      (balanceOf db p.receiver).map (fun b => b + p.amount) ∧
    totalBalance (transfer_money db p).2 = totalBalance db ∧
    ∀ reqs, totalBalance (runTransfers db reqs) = totalBalance db := by
  obtain ⟨-, hstate, -, -, -⟩ := transfer_money_success_inv db p tid hs
  refine ⟨?_, ?_, totalBalance_transfer db p hN,
    fun reqs => totalBalance_runTransfers reqs db hN⟩
  · rw [hstate, balanceOf_successState]
    simp [hne, sub_eq_add_neg]
  · have hne' : p.receiver ≠ p.sender := fun h => hne h.symm
    rw [hstate, balanceOf_successState]
    simp [hne']

/-- Witness for C2: the 40-unit transfer between the two sample accounts
conserves value. -/
theorem transfer_money_conservation_witness :
    balanceOf (transfer_money dbAB argsAB).2 argsAB.sender =
      (balanceOf dbAB argsAB.sender).map (fun b => b - argsAB.amount) ∧
    balanceOf (transfer_money dbAB argsAB).2 argsAB.receiver =
      (balanceOf dbAB argsAB.receiver).map (fun b => b + argsAB.amount) ∧
    totalBalance (transfer_money dbAB argsAB).2 = totalBalance dbAB ∧
    totalBalance (runTransfers dbAB [argsAB, argsBig]) = totalBalance dbAB :=
  ⟨(transfer_money_conservation dbAB argsAB 1 (by decide) (by decide) (by decide)).1,
   (transfer_money_conservation dbAB argsAB 1 (by decide) (by decide) (by decide)).2.1,
   (transfer_money_conservation dbAB argsAB 1 (by decide) (by decide) (by decide)).2.2.1,
   (transfer_money_conservation dbAB argsAB 1 (by decide) (by decide)
     (by decide)).2.2.2 [argsAB, argsBig]⟩

/-- C3: if every balance is non-negative before a transfer_money call,
every balance is non-negative after it, and a call that does not succeed
(in particular one that would drive a balance negative) persists no
mutation at all. -/
theorem transfer_money_nonneg (db : DB) (p : TransferArgs)
    (h0 : ∀ a ∈ db.accounts, 0 ≤ a.balance) :
    (∀ a ∈ (transfer_money db p).2.accounts, 0 ≤ a.balance) ∧
    ((transfer_money db p).1.isSuccess = false → (transfer_money db p).2 = db) := by
  refine ⟨?_, rollback_of_failure db p⟩
  rcases transfer_money_shape db p with ⟨e, he⟩ | ⟨a, -, -, -, -, -, -, hg1, hg2, he⟩
  · rw [he]
    exact h0
  · rw [he, successState_accounts]
    exact nonneg_updateAccounts _ _ _
      (nonneg_updateAccounts _ _ _ h0 hg1) hg2

/-- Witness for C3: the rejected oversized transfer persists nothing. -/
theorem transfer_money_nonneg_witness :
    (transfer_money dbAB argsBig).2 = dbAB :=
  (transfer_money_nonneg dbAB argsBig (by decide)).2 (by decide)

/-- Counterexample to C4: a self-transfer on an ACTIVE account with
sufficient balance is not rejected at all — it returns success and
records a transaction, contradicting the claimed
Rejected(SelfTransferNotAllowed). -/
theorem self_transfer_not_rejected :
    (transfer_money dbSelf argsSelf).1 = TransferResult.success 1 ∧
    (transfer_money dbSelf argsSelf).2.transactions.length = 1 := by decide

/-- C4 amended: transfer_money has no self-transfer check; when the
receiver id equals the sender id and the account is ACTIVE with
sufficient balance, within the daily limit, positive amount and fresh
reference, the call succeeds, leaves the account's balance unchanged and
records one COMPLETED transaction. -/
theorem self_transfer_completes (db : DB) (p : TransferArgs) (a : Account)
    (hN : (db.accounts.map (·.account_id)).Nodup)
    (hself : p.receiver = p.sender)
    (hfind : db.accounts.find? (senderPred p) = some a)
    (hbal : ¬ a.balance < p.amount)
    (hdaily : ¬ dailyCompletedTotal db p.sender + p.amount > a.daily_transfer_limit)
    (hpos : 0 < p.amount)
    (href : (db.transactions.any fun t =>
      t.reference_number == p.reference_number) = false) :
    (transfer_money db p).1 = TransferResult.success db.next_txn_id ∧
    balanceOf (transfer_money db p).2 p.sender = balanceOf db p.sender ∧
    (transfer_money db p).2.transactions.map (·.reference_number) =
      db.transactions.map (·.reference_number) ++ [p.reference_number] ∧
    ∃ t ∈ (transfer_money db p).2.transactions,
      t.reference_number = p.reference_number ∧ t.status = TxnStatus.completed := by
  have hamem : a ∈ db.accounts := List.mem_of_find?_eq_some hfind
  have hsp := List.find?_some hfind
  unfold senderPred at hsp
  simp only [Bool.and_eq_true] at hsp
  have haid : a.account_id = p.sender := by simpa using hsp.1
  have hrecv : receiverActive db p.receiver = true := by
    unfold receiverActive
    rw [List.any_eq_true]
    refine ⟨a, hamem, ?_⟩
    rw [hself]
    simp [haid, hsp.2]
  have hg1 : (db.accounts.any fun x =>
      x.account_id == p.sender && decide (x.balance + -p.amount < 0)) = false := by
    rw [any_id_of_mem db.accounts a p.sender
      (fun x => decide (x.balance + -p.amount < 0)) hN hamem haid]
    simp only [decide_eq_false_iff_not]
    omega
  have hmem1 : (if a.account_id == p.sender then
      { a with balance := a.balance + -p.amount } else a)
      ∈ updateAccounts db.accounts p.sender (-p.amount) :=
    List.mem_map.mpr ⟨a, hamem, rfl⟩
  have hid1 : (if a.account_id == p.sender then
      { a with balance := a.balance + -p.amount } else a).account_id
      = p.receiver := by
    rw [acct_id_update, hself]
    exact haid
  have hN1 : ((updateAccounts db.accounts p.sender (-p.amount)).map
      (·.account_id)).Nodup := by
    rw [updateAccounts_ids]
    exact hN
  have hg2 : ((updateAccounts db.accounts p.sender (-p.amount)).any fun x =>
      x.account_id == p.receiver && decide (x.balance + p.amount < 0)) = false := by
    rw [any_id_of_mem _ _ p.receiver
      (fun x => decide (x.balance + p.amount < 0)) hN1 hmem1 hid1]
    have hT : (a.account_id == p.sender) = true := by simp [haid]
    rw [hT]
    simp only [if_pos]
    simp only [decide_eq_false_iff_not]
    omega
  have heq := transfer_money_success_of db p a hfind hrecv hbal hdaily hpos href hg1 hg2
  refine ⟨by rw [heq], ?_, ?_, ?_⟩
  · rw [heq]
    show balanceOf (successState db p) p.sender = balanceOf db p.sender
    rw [balanceOf_successState]
    cases hB : balanceOf db p.sender with
    | none => rfl
    | some b =>
        simp [hself]
  · rw [heq]
    exact successState_refs db p
  · rw [heq]
    refine ⟨(fun t => if t.transaction_id == db.next_txn_id then
        { t with status := TxnStatus.completed } else t) (pendingTxn db p), ?_, ?_, ?_⟩
    · show _ ∈ (successState db p).transactions
      rw [successState_transactions]
      exact List.mem_map.mpr ⟨pendingTxn db p,
        List.mem_append_right _ (List.mem_singleton.mpr rfl), rfl⟩
    · rw [ref_mark]
      rfl
    · simp [pendingTxn]

/-- Witness for C4 amended: the concrete self-transfer succeeds with the
balance unchanged and one reference appended. -/
theorem self_transfer_completes_witness :
    (transfer_money dbSelf argsSelf).1 = TransferResult.success 1 ∧
    balanceOf (transfer_money dbSelf argsSelf).2 argsSelf.sender =
      balanceOf dbSelf argsSelf.sender ∧
    (transfer_money dbSelf argsSelf).2.transactions.map (·.reference_number) =
      dbSelf.transactions.map (·.reference_number) ++ [argsSelf.reference_number] :=
  ⟨(self_transfer_completes dbSelf argsSelf acctA (by decide) rfl (by decide)
      (by decide) (by decide) (by decide) (by decide)).1,
   (self_transfer_completes dbSelf argsSelf acctA (by decide) rfl (by decide)
      (by decide) (by decide) (by decide) (by decide)).2.1,
   (self_transfer_completes dbSelf argsSelf acctA (by decide) rfl (by decide)
      (by decide) (by decide) (by decide) (by decide)).2.2.1⟩

/-- C5: with an ACTIVE sender, an ACTIVE receiver and amount exceeding
the sender's balance, transfer_money returns the insufficient-balance
rejection and writes nothing, independent of the daily limit. -/
theorem insufficient_balance_rejected (db : DB) (p : TransferArgs) (a : Account)
    (hfind : db.accounts.find? (senderPred p) = some a)
    (hrecv : receiverActive db p.receiver = true)
    (hlt : a.balance < p.amount) :
    transfer_money db p = (TransferResult.failure TransferError.insufficientBalance, db) := by
  unfold transfer_money transferBody
  rw [hfind]
  dsimp only
  rw [if_neg (by simp [hrecv]), if_pos hlt]

/-- Witness for C5: balance 100, daily limit 100000 would allow it, but
amount 150 is rejected with the insufficient-balance error and no rows
are written. -/
theorem insufficient_balance_rejected_witness :
    transfer_money dbAB argsBig =
      (TransferResult.failure TransferError.insufficientBalance, dbAB) :=
  insufficient_balance_rejected dbAB argsBig acctA (by decide) (by decide) (by decide)

/-- C6: past the balance check, the call is rejected with the
daily-limit error exactly when the day's COMPLETED outgoing total plus
the amount strictly exceeds the sender's daily_transfer_limit (equality
is allowed through). -/
theorem daily_limit_exceeded_iff (db : DB) (p : TransferArgs) (a : Account)
    (hfind : db.accounts.find? (senderPred p) = some a)
    (hrecv : receiverActive db p.receiver = true)
    (hbal : ¬ a.balance < p.amount) :
    ((transfer_money db p).1 = TransferResult.failure TransferError.dailyLimitExceeded
      ↔ dailyCompletedTotal db p.sender + p.amount > a.daily_transfer_limit) := by
  constructor
  · intro h
    by_contra hd
    unfold transfer_money transferBody at h
    rw [hfind] at h
    dsimp only at h
    rw [if_neg (by simp [hrecv]), if_neg hbal, if_neg hd] at h
    cases hins : insertTransaction db p with
    | error e =>
        rw [hins] at h
        simp at h
    | ok pr =>
        obtain ⟨txId, db1⟩ := pr
        rw [hins] at h
        dsimp only at h
        cases hupd1 : applyBalanceDelta db1 p.sender (-p.amount) with
        | error e =>
            rw [hupd1] at h
            simp at h
        | ok db2 =>
            rw [hupd1] at h
            dsimp only at h
            cases hupd2 : applyBalanceDelta db2 p.receiver p.amount with
            | error e =>
                rw [hupd2] at h
                simp at h
            | ok db3 =>
                rw [hupd2] at h
                simp at h
  · intro hd
    unfold transfer_money transferBody
    rw [hfind]
    dsimp only
    rw [if_neg (by simp [hrecv]), if_neg hbal, if_pos hd]

/-- Witness for C6: balance 500, limit 1000, 900 already transferred
today, request 150 is rejected with the daily-limit error. -/
theorem daily_limit_exceeded_iff_witness :
    (transfer_money dbLimit argsBig).1 =
      TransferResult.failure TransferError.dailyLimitExceeded :=
  (daily_limit_exceeded_iff dbLimit argsBig acctL (by decide) (by decide)
    (by decide)).mpr (by decide)

/-- Counterexample to C7: a zero-amount request with ACTIVE sender and
receiver is not rejected by any classified InvalidAmount branch — no
such branch exists in transfer_money; the call falls through every
check, trips the transactions.amount > 0 constraint at the INSERT and is
reported through the blanket exception handler as the raw SQLERRM
text. -/
theorem nonpositive_amount_generic_error :
    transfer_money dbAB argsZero =
      (TransferResult.failure (TransferError.sqlError
        SqlError.checkViolationAmountPositive), dbAB) := by decide

/-- C7 amended: a non-positive amount never succeeds and no persistent
write survives, but the rejection is whichever earlier check fires or
the generic constraint-violation error from the handler — never a
classified InvalidAmount outcome. -/
theorem nonpositive_amount_never_succeeds (db : DB) (p : TransferArgs)
    (h : p.amount ≤ 0) :
    (transfer_money db p).1.isSuccess = false ∧
    (transfer_money db p).2 = db := by
  have hfail : (transfer_money db p).1.isSuccess = false := by
    cases hres : (transfer_money db p).1 with
    | success tid =>
        obtain ⟨-, -, -, hpos, -⟩ := transfer_money_success_inv db p tid hres
        omega
    | failure e => rfl
  exact ⟨hfail, rollback_of_failure db p hfail⟩

/-- Witness for C7 amended: the zero-amount request fails and leaves the
state untouched. -/
theorem nonpositive_amount_never_succeeds_witness :
    (transfer_money dbAB argsZero).1.isSuccess = false ∧
    (transfer_money dbAB argsZero).2 = dbAB :=
  nonpositive_amount_never_succeeds dbAB argsZero (by decide)

/-- Counterexample to C8: the first call with reference R1 succeeds; the
retried call with the same reference does not return that original
outcome — it fails with the duplicate-reference constraint surfacing as
the generic handler error. -/
theorem duplicate_reference_not_original_outcome :
    (transfer_money dbAB argsAB).1 = TransferResult.success 1 ∧
    (transfer_money (transfer_money dbAB argsAB).2 argsAB).1 =
      TransferResult.failure (TransferError.sqlError
        SqlError.uniqueViolationReference) := by decide

/-- C8 amended: a retried call whose first run succeeded always fails
and persists nothing, so exactly one transaction row and one balance
mutation survive in total; the retry does not replay the original
success outcome. -/
theorem duplicate_reference_retry_fails (db : DB) (p : TransferArgs) (tid : Nat)
    (h : (transfer_money db p).1 = TransferResult.success tid) :
    (transfer_money (transfer_money db p).2 p).1.isSuccess = false ∧
    (transfer_money (transfer_money db p).2 p).2 = (transfer_money db p).2 := by
  have href := ref_present_after_success db p tid h
  have hfail := no_success_of_ref_present (transfer_money db p).2 p href
  exact ⟨hfail, rollback_of_failure _ p hfail⟩

/-- Witness for C8 amended: retrying the sample transfer fails and keeps
the post-first-call state. -/
theorem duplicate_reference_retry_fails_witness :
    (transfer_money (transfer_money dbAB argsAB).2 argsAB).1.isSuccess = false ∧
    (transfer_money (transfer_money dbAB argsAB).2 argsAB).2 =
      (transfer_money dbAB argsAB).2 :=
  duplicate_reference_retry_fails dbAB argsAB 1 (by decide)

/-- Counterexample to C9: under the posited race the debit trips CHECK
(balance >= 0) and the outcome is the blanket handler's generic SQLERRM
error, not the classified insufficient-balance rejection the claim
requires. -/
theorem race_misclassified :
    (transfer_money_raced dbAB argsAB (-100)).1 =
      TransferResult.failure (TransferError.sqlError
        SqlError.checkViolationBalanceNonneg) ∧
    (transfer_money_raced dbAB argsAB (-100)).1 ≠
      TransferResult.failure TransferError.insufficientBalance := by decide

/-- C9 amended: when the balance mutation fails with the store-level
constraint violation, transfer_money does not crash and persists none of
its own writes, but it reports the raw SQLERRM store error instead of
converting it to the classified InsufficientFunds rejection. -/
theorem race_constraint_violation_masked (db : DB) (p : TransferArgs)
    (a : Account) (d : Int)
    (hfind : db.accounts.find? (senderPred p) = some a)
    (hrecv : receiverActive db p.receiver = true)
    (hbal : ¬ a.balance < p.amount)
    (hdaily : ¬ dailyCompletedTotal db p.sender + p.amount > a.daily_transfer_limit)
    (hpos : 0 < p.amount)
    (href : (db.transactions.any fun t =>
      t.reference_number == p.reference_number) = false)
    (hN : (db.accounts.map (·.account_id)).Nodup)
    (hneg : a.balance + d + -p.amount < 0) :
    transfer_money_raced db p d =
      (TransferResult.failure (TransferError.sqlError
        SqlError.checkViolationBalanceNonneg),
       raceWrite db p.sender d) ∧
    (transfer_money_raced db p d).1 ≠
      TransferResult.failure TransferError.insufficientBalance := by
  have heq := transfer_money_raced_generic db p a d hfind hrecv hbal hdaily
    hpos href hN hneg
  refine ⟨heq, ?_⟩
  rw [heq]
  simp

/-- Witness for C9 amended: the concrete raced run returns the generic
store error with only the interfering write persisted. -/
theorem race_constraint_violation_masked_witness :
    transfer_money_raced dbAB argsAB (-100) =
      (TransferResult.failure (TransferError.sqlError
        SqlError.checkViolationBalanceNonneg),
       raceWrite dbAB argsAB.sender (-100)) :=
  (race_constraint_violation_masked dbAB argsAB acctA (-100) (by decide)
    (by decide) (by decide) (by decide) (by decide) (by decide) (by decide)
    (by decide)).1

end Ledger

namespace Demo

/-- C10: the demo transferMoney succeeds exactly when the user has an
ACTIVE account, the receiver account number resolves to an ACTIVE
account and the amount does not exceed the sender's SLSH balance — with
no daily-limit check, no positivity check and no self-transfer check in
that condition; on success it appends one transaction recorded directly
as COMPLETED in currency SLSH, it never touches any USD balance, and on
failure it changes nothing. -/
theorem transferMoney_demo_characterization (s : DemoState) (userId : Nat)
    (recv : String) (amount : Int) (desc : String) :
    ((transferMoney s userId recv amount desc).1 = true ↔
      ∃ sa ra,
        s.demoAccounts.find? (fun a =>
          a.user_id == userId && a.status == "ACTIVE") = some sa ∧
        s.demoAccounts.find? (fun a =>
          a.account_number == recv && a.status == "ACTIVE") = some ra ∧
        ¬ sa.balance_slsh < amount) ∧
    (transferMoney s userId recv amount desc).2.demoAccounts.map (·.balance_usd)
      = s.demoAccounts.map (·.balance_usd) ∧
    ((transferMoney s userId recv amount desc).1 = true →
      ∃ tx, (transferMoney s userId recv amount desc).2.demoTransactions
          = s.demoTransactions ++ [tx] ∧
        tx.status = "COMPLETED" ∧ tx.currency = "SLSH" ∧ tx.amount = amount) ∧
    ((transferMoney s userId recv amount desc).1 = false →
      (transferMoney s userId recv amount desc).2 = s) := by
  unfold transferMoney
  cases h1 : s.demoAccounts.find? (fun a =>
      a.user_id == userId && a.status == "ACTIVE") with
  | none =>
      refine ⟨⟨fun h => Bool.noConfusion h, ?_⟩, rfl,
        fun h => Bool.noConfusion h, fun _ => rfl⟩
      rintro ⟨sa, ra, hsa, -, -⟩
      cases hsa
  | some sa0 =>
      cases h2 : s.demoAccounts.find? (fun a =>
          a.account_number == recv && a.status == "ACTIVE") with
      | none =>
          refine ⟨⟨fun h => Bool.noConfusion h, ?_⟩, rfl,
            fun h => Bool.noConfusion h, fun _ => rfl⟩
          rintro ⟨sa, ra, -, hra, -⟩
          cases hra
      | some ra0 =>
          dsimp only
          by_cases hlt : sa0.balance_slsh < amount
          · rw [if_pos hlt]
            refine ⟨⟨fun h => Bool.noConfusion h, ?_⟩, rfl,
              fun h => Bool.noConfusion h, fun _ => rfl⟩
            rintro ⟨sa, ra, hsa, hra, hge⟩
            cases hsa
            exact absurd hlt hge
          · rw [if_neg hlt]
            refine ⟨⟨fun _ => ⟨sa0, ra0, rfl, rfl, hlt⟩, fun _ => rfl⟩, ?_, ?_, ?_⟩
            · dsimp only
              rw [List.map_map]
              have hcomp : ((fun x : DemoAccount => x.balance_usd) ∘
                  fun a : DemoAccount =>
                    { a with balance_slsh := a.balance_slsh
                        + (if a.account_id == sa0.account_id then -amount else 0)
                        + (if a.account_id == ra0.account_id then amount else 0) })
                  = fun x : DemoAccount => x.balance_usd := by
                funext a
                rfl
              rw [hcomp]
            · intro _
              exact ⟨_, rfl, rfl, rfl, rfl⟩
            · intro h
              exact Bool.noConfusion h

/-- Witness for C10: the demo completes a negative-amount self-transfer,
exhibiting the absence of positivity and self-transfer checks. -/
theorem transferMoney_demo_characterization_witness :
    (transferMoney demoS 7 "SL1" (-5) "d").1 = true :=
  (transferMoney_demo_characterization demoS 7 "SL1" (-5) "d").1.mpr
    ⟨demoAcct, demoAcct, by decide, by decide, by decide⟩

end Demo
